import Mathlib

/-!
Shallow embedding of the provider-abstraction layer of the gemini-cli
multi-provider fork: the canonical (Gemini) data model, the config
resolver and generator factory (`contentGenerator.ts`), and the three
provider adapters (`openai-adapter.ts`, `anthropic-adapter.ts`,
`meta-llama-adapter.ts`).

JavaScript conventions are made explicit:
* `x || d` on strings is `jsOrStr` (empty string is falsy);
* truthiness of an optional string is `jsStrTruthy`;
* `String.prototype.includes` is `jsIncludes`;
* `Array.prototype.join(sep)` is `joinWith sep`.
-/

/-- JS `x || d` for an optional string `x`: the empty string is falsy. -/
def jsOrStr (v : Option String) (d : String) : String :=
  match v with
  | some s => if s = "" then d else s
  | none => d

/-- JS truthiness of an optional string: `undefined`, `null` and `""` are falsy. -/
def jsStrTruthy (v : Option String) : Bool :=
  match v with
  | some s => s ≠ ""
  | none => false

/-- JS `s.includes(sub)`. -/
def jsIncludes (s sub : String) : Bool :=
  decide (sub.toList <:+: s.toList)

/-- JS `Array.prototype.join(sep)`. -/
def joinWith (sep : String) : List String → String
  | [] => ""
  | [x] => x
  | x :: y :: xs => x ++ sep ++ joinWith sep (y :: xs)

/-- Canonical finish-reason enumeration (`FinishReason` from the genai SDK,
restricted to the four values this layer produces). -/
inductive FinishReason where
  | STOP
  | MAX_TOKENS
  | SAFETY
  | OTHER
deriving DecidableEq

/-- Canonical Part (the genai SDK's `Part`; the name `Part` itself is taken
by Mathlib): a tagged variant, `text(string)` or
`inlineData(mimeType, base64 data)`. -/
inductive GPart where
  | text (s : String)
  | inlineData (mimeType data : String)
deriving DecidableEq

/-- Canonical Content: a role plus an ordered list of Parts. -/
structure Content where
  role : String
  parts : List GPart
deriving DecidableEq

/-- One element of a `contents` array: either a bare string or a Content. -/
inductive ContentItem where
  | str (s : String)
  | content (c : Content)
deriving DecidableEq

/-- The `contents` field of a request: a single item or an array of items. -/
inductive ContentsInput where
  | one (item : ContentItem)
  | many (items : List ContentItem)
deriving DecidableEq

/-- A `systemInstruction`: a bare string or a Content. -/
inductive SysInstr where
  | str (s : String)
  | content (c : Content)
deriving DecidableEq

/-- The request `config` object (only the field the adapters' message
translation reads is modelled; the pass-through sampling parameters play
no role in any claim). -/
structure GenerateContentConfig where
  systemInstruction : Option SysInstr
deriving DecidableEq

/-- Canonical generation request (the fields the translation pipeline reads). -/
structure GenerateContentParameters where
  model : Option String
  contents : Option ContentsInput
  config : Option GenerateContentConfig
deriving DecidableEq

/-- Canonical usage metadata. -/
structure UsageMetadata where
  promptTokenCount : Nat
  candidatesTokenCount : Nat
  totalTokenCount : Nat
deriving DecidableEq

/-- Canonical candidate. -/
structure Candidate where
  content : Content
  finishReason : Option FinishReason
  index : Nat
deriving DecidableEq

/-- Canonical generation response. -/
structure GenerateContentResponse where
  candidates : List Candidate
  usageMetadata : Option UsageMetadata
deriving DecidableEq

/-- JS truthiness of a `contents` value: a bare empty string is falsy,
objects and arrays (even empty ones) are truthy. -/
def jsContentsTruthy : ContentsInput → Bool
  | .one (.str s) => s ≠ ""
  | .one (.content _) => true
  | .many _ => true

/-- `part.text || ''` on a canonical Part. -/
def partTextOrEmpty : GPart → String
  | .text s => s
  | .inlineData _ _ => ""

/-- `content.parts.map((part) => part.text || '').join(' ')`, the inner step of
`extractTextFromContents` (identical in all three adapters). -/
def contentPartsText (parts : List GPart) : String :=
  joinWith " " (parts.map partTextOrEmpty)

/-- `extractTextFromContents` item step for the array case. -/
def contentItemText : ContentItem → String
  | .str s => s
  | .content c => contentPartsText c.parts

/-- `extractTextFromContents`, identical in all three adapters: a bare string
is returned as-is; an array joins each element's text with `' '`; a single
Content joins its parts' texts with `' '`. -/
def extractTextFromContents : ContentsInput → String
  | .one (.str s) => s
  | .many items => joinWith " " (items.map contentItemText)
  | .one (.content c) => contentPartsText c.parts

/-- `normalizeContents`, identical in all three adapters: an array is kept,
anything else is wrapped in a one-element array. -/
def normalizeContents : ContentsInput → List ContentItem
  | .many items => items
  | .one item => [item]

/-- The `AuthType` enum of `contentGenerator.ts`. -/
inductive AuthType where
  | LOGIN_WITH_GOOGLE
  | USE_GEMINI
  | USE_VERTEX_AI
  | CLOUD_SHELL
  | USE_OPENAI
  | USE_ANTHROPIC
  | USE_META_LLAMA
deriving DecidableEq

/-- The string value of each `AuthType` enum member. -/
def authTypeValue : AuthType → String
  | .LOGIN_WITH_GOOGLE => "oauth-personal"
  | .USE_GEMINI => "gemini-api-key"
  | .USE_VERTEX_AI => "vertex-ai"
  | .CLOUD_SHELL => "cloud-shell"
  | .USE_OPENAI => "openai-api-key"
  | .USE_ANTHROPIC => "anthropic-api-key"
  | .USE_META_LLAMA => "meta-llama-api-key"

/-- The `provider` tag of a `ContentGeneratorConfig`. -/
inductive Provider where
  | google
  | openai
  | anthropic
  | meta
deriving DecidableEq

/-- `ContentGeneratorConfig` from `contentGenerator.ts`. -/
structure ContentGeneratorConfig where
  model : String
  apiKey : Option String
  vertexai : Option Bool
  authType : Option AuthType
  proxy : Option String
  provider : Option Provider
deriving DecidableEq

/-- The process environment variables read by `createContentGeneratorConfig`.
`none` models an unset variable. -/
structure Env where
  GEMINI_API_KEY : Option String
  GOOGLE_API_KEY : Option String
  OPENAI_API_KEY : Option String
  ANTHROPIC_API_KEY : Option String
  META_API_KEY : Option String
  LLAMA_API_KEY : Option String
  GOOGLE_CLOUD_PROJECT : Option String
  GOOGLE_CLOUD_LOCATION : Option String
deriving DecidableEq

/-- `process.env.X || undefined`: an unset or empty variable becomes
`undefined`. -/
def envOpt (v : Option String) : Option String :=
  match v with
  | some s => if s = "" then none else some s
  | none => none

/-- Modelled from the spec: the fixed default native-provider model
(`DEFAULT_GEMINI_MODEL` is imported from `config/models.js`, which is not
part of the provided sources; the spec calls it "a fixed default"). Its
exact value is irrelevant to every claim; the published value is used. -/
def DEFAULT_GEMINI_MODEL : String := "gemini-2.5-pro"

/-- `createContentGeneratorConfig` from `contentGenerator.ts`.
`cfgModel` is `config.getModel()` and `proxy` is `config.getProxy()`.
The `getEffectiveModel` call in the `USE_GEMINI` branch is a fire-and-forget
side effect whose result is not used for the returned config, so it does not
appear in this value-level embedding. -/
def createContentGeneratorConfig (cfgModel : Option String) (proxy : Option String)
    (authType : Option AuthType) (env : Env) : ContentGeneratorConfig :=
  let geminiApiKey := envOpt env.GEMINI_API_KEY
  let googleApiKey := envOpt env.GOOGLE_API_KEY
  let openaiApiKey := envOpt env.OPENAI_API_KEY
  let anthropicApiKey := envOpt env.ANTHROPIC_API_KEY
  let metaApiKey :=
    match envOpt env.META_API_KEY with
    | some k => some k
    | none => envOpt env.LLAMA_API_KEY
  let googleCloudProject := envOpt env.GOOGLE_CLOUD_PROJECT
  let googleCloudLocation := envOpt env.GOOGLE_CLOUD_LOCATION
  let effectiveModel := jsOrStr cfgModel DEFAULT_GEMINI_MODEL
  let base : ContentGeneratorConfig :=
    { model := effectiveModel, apiKey := none, vertexai := none,
      authType := authType, proxy := proxy, provider := none }
  if authType = some AuthType.LOGIN_WITH_GOOGLE ∨ authType = some AuthType.CLOUD_SHELL then
    { base with provider := some Provider.google }
  else if authType = some AuthType.USE_GEMINI ∧ geminiApiKey ≠ none then
    { base with apiKey := geminiApiKey, vertexai := some false,
                provider := some Provider.google }
  else if authType = some AuthType.USE_VERTEX_AI ∧
      (googleApiKey ≠ none ∨ (googleCloudProject ≠ none ∧ googleCloudLocation ≠ none)) then
    { base with apiKey := googleApiKey, vertexai := some true,
                provider := some Provider.google }
  else if authType = some AuthType.USE_OPENAI ∧ openaiApiKey ≠ none then
    { base with apiKey := openaiApiKey, provider := some Provider.openai,
                model := if jsIncludes effectiveModel "gemini" then "gpt-4o"
                         else effectiveModel }
  else if authType = some AuthType.USE_ANTHROPIC ∧ anthropicApiKey ≠ none then
    { base with apiKey := anthropicApiKey, provider := some Provider.anthropic,
                model := if jsIncludes effectiveModel "gemini" then "claude-3-5-sonnet-20241022"
                         else effectiveModel }
  else if authType = some AuthType.USE_META_LLAMA ∧ metaApiKey ≠ none then
    { base with apiKey := metaApiKey, provider := some Provider.meta,
                model := if jsIncludes effectiveModel "gemini" then "llama-3.1-70b-instruct"
                         else effectiveModel }
  else
    base

/-- The concrete generator a factory call constructs (transport handles
abstracted to the constructor arguments the source passes). -/
inductive GeneratorInstance where
  | codeAssist
  | googleGenAI (apiKey : Option String) (vertexai : Option Bool)
  | openaiAdapter (apiKey : String) (baseURL : Option String)
  | anthropicAdapter (apiKey : String)
  | metaLlamaAdapter (apiKey : String) (baseURL : String)
deriving DecidableEq

/-- `createContentGenerator` from `contentGenerator.ts`; a thrown `Error`
becomes `Except.error` with the source's message. The factory is pure
local validation: no network activity is modelled because none occurs. -/
def createContentGenerator (config : ContentGeneratorConfig) :
    Except String GeneratorInstance :=
  if config.authType = some AuthType.LOGIN_WITH_GOOGLE ∨
      config.authType = some AuthType.CLOUD_SHELL then
    Except.ok GeneratorInstance.codeAssist
  else if config.authType = some AuthType.USE_GEMINI ∨
      config.authType = some AuthType.USE_VERTEX_AI then
    Except.ok (GeneratorInstance.googleGenAI
      (if config.apiKey = some "" then none else config.apiKey) config.vertexai)
  else if config.authType = some AuthType.USE_OPENAI then
    match config.apiKey with
    | none => Except.error "OpenAI API key is required but not provided"
    | some k =>
      if k = "" then Except.error "OpenAI API key is required but not provided"
      else Except.ok (GeneratorInstance.openaiAdapter k config.proxy)
  else if config.authType = some AuthType.USE_ANTHROPIC then
    match config.apiKey with
    | none => Except.error "Anthropic API key is required but not provided"
    | some k =>
      if k = "" then Except.error "Anthropic API key is required but not provided"
      else Except.ok (GeneratorInstance.anthropicAdapter k)
  else if config.authType = some AuthType.USE_META_LLAMA then
    match config.apiKey with
    | none => Except.error "Meta Llama API key is required but not provided"
    | some k =>
      if k = "" then Except.error "Meta Llama API key is required but not provided"
      else Except.ok (GeneratorInstance.metaLlamaAdapter k
        (jsOrStr config.proxy "https://api.together.xyz/v1"))
  else
    Except.error ("Error creating contentGenerator: Unsupported authType: " ++
      (match config.authType with
       | some a => authTypeValue a
       | none => "undefined"))

/-! ## Anthropic adapter (`anthropic-adapter.ts`) -/

/-- An Anthropic request content block as built by the adapter (the adapter
only ever builds blocks with `type: 'text'`, so a block is a type tag plus a
text payload). -/
structure AnthropicContentBlock where
  type : String
  text : String
deriving DecidableEq

/-- The `content` of an Anthropic message: a bare string or a block array. -/
inductive AnthropicMessageContent where
  | str (s : String)
  | blocks (bs : List AnthropicContentBlock)
deriving DecidableEq

/-- An Anthropic `MessageParam`. -/
structure AnthropicMessage where
  role : String
  content : AnthropicMessageContent
deriving DecidableEq

/-- The placeholder the Anthropic adapter substitutes for `inlineData`. -/
def anthropicImagePlaceholder : String :=
  "[Image content - not supported in this adapter]"

/-- The guard `parts.length === 1 && parts[0].text && !parts[0].inlineData` of
`convertGeminiPartsToAnthropic`, returning the single part's text when it
fires (a canonical `inlineData` part has no `text`, and an empty text string
is falsy). -/
def anthropicSingleTextPart : List GPart → Option String
  | [GPart.text s] => if s = "" then none else some s
  | _ => none

/-- The block-building loop of `convertGeminiPartsToAnthropic`: a truthy
`part.text` becomes a text block, `part.inlineData` becomes the placeholder
text block, anything else is skipped. -/
def anthropicPartBlocks (parts : List GPart) : List AnthropicContentBlock :=
  parts.filterMap fun p =>
    match p with
    | GPart.text s => if s = "" then none else some ⟨"text", s⟩
    | GPart.inlineData _ _ => some ⟨"text", anthropicImagePlaceholder⟩

/-- The final collapse of `convertGeminiPartsToAnthropic`: a single text
block collapses to its bare text, otherwise the block array is returned. -/
def anthropicBlocksResult : List AnthropicContentBlock → AnthropicMessageContent
  | [b] => if b.type = "text" then AnthropicMessageContent.str b.text
           else AnthropicMessageContent.blocks [b]
  | bs => AnthropicMessageContent.blocks bs

/-- `AnthropicAdapter.convertGeminiPartsToAnthropic`. -/
def convertGeminiPartsToAnthropic (parts : List GPart) : AnthropicMessageContent :=
  match anthropicSingleTextPart parts with
  | some s => AnthropicMessageContent.str s
  | none => anthropicBlocksResult (anthropicPartBlocks parts)

/-- The per-element step of `convertGeminiToAnthropicMessages`: a bare string
becomes a user message; role `user`/`model` become `user`/`assistant`
messages; any other role produces nothing. -/
def anthropicItemToMessage : ContentItem → Option AnthropicMessage
  | ContentItem.str s => some ⟨"user", AnthropicMessageContent.str s⟩
  | ContentItem.content c =>
    if c.role = "user" then
      some ⟨"user", convertGeminiPartsToAnthropic c.parts⟩
    else if c.role = "model" then
      some ⟨"assistant", convertGeminiPartsToAnthropic c.parts⟩
    else
      none

/-- `AnthropicAdapter.convertGeminiToAnthropicMessages`. -/
def convertGeminiToAnthropicMessages (request : GenerateContentParameters) :
    List AnthropicMessage :=
  match request.contents with
  | none => []
  | some contents =>
    if jsContentsTruthy contents then
      (normalizeContents contents).filterMap anthropicItemToMessage
    else
      []

/-- `AnthropicAdapter.mapFinishReason` (a JS `switch` is a sequential
equality chain; `none` models `null`). -/
def anthropicMapFinishReason (reason : Option String) : FinishReason :=
  if reason = some "end_turn" then FinishReason.STOP
  else if reason = some "max_tokens" then FinishReason.MAX_TOKENS
  else if reason = some "stop_sequence" then FinishReason.STOP
  else if reason = some "tool_use" then FinishReason.STOP
  else FinishReason.OTHER

/-- The `usage` object of an Anthropic API message (both counters are
required fields of the Anthropic schema). -/
structure AnthropicUsage where
  input_tokens : Nat
  output_tokens : Nat
deriving DecidableEq

/-- A response content block of an Anthropic API message. Non-text blocks
carry no usable `text`; the converter filters on `type === 'text'` before
reading `text`. -/
structure AnthropicRespBlock where
  type : String
  text : String
deriving DecidableEq

/-- An Anthropic API `Message` (the fields the converter reads). -/
structure AnthropicApiMessage where
  content : List AnthropicRespBlock
  stop_reason : Option String
  usage : AnthropicUsage
deriving DecidableEq

/-- `AnthropicAdapter.convertAnthropicToGeminiResponse`. -/
def convertAnthropicToGeminiResponse (response : AnthropicApiMessage) :
    GenerateContentResponse :=
  let textContent :=
    String.join (((response.content.filter fun b => b.type = "text").map
      fun b => b.text))
  { candidates :=
      [{ content := { role := "model", parts := [GPart.text textContent] },
         finishReason := some (anthropicMapFinishReason response.stop_reason),
         index := 0 }],
    usageMetadata :=
      some { promptTokenCount := response.usage.input_tokens,
             candidatesTokenCount := response.usage.output_tokens,
             totalTokenCount :=
               response.usage.input_tokens + response.usage.output_tokens } }

/-- The `delta` of an Anthropic stream event. -/
structure AnthropicDelta where
  type : String
  text : Option String
deriving DecidableEq

/-- An Anthropic stream event (the fields the stream loop reads). -/
structure AnthropicStreamChunk where
  type : String
  delta : Option AnthropicDelta
deriving DecidableEq

/-- `AnthropicAdapter.convertAnthropicStreamChunkToGemini`: the partial
response carries only `chunk.delta?.text || ''` and never a finish reason. -/
def convertAnthropicStreamChunkToGemini (chunk : AnthropicStreamChunk) :
    GenerateContentResponse :=
  let text :=
    match chunk.delta with
    | some d => jsOrStr d.text ""
    | none => ""
  { candidates :=
      [{ content := { role := "model", parts := [GPart.text text] },
         finishReason := none,
         index := 0 }],
    usageMetadata := none }

/-- The guard of the Anthropic stream loop:
`chunk.type === 'content_block_delta' && chunk.delta.type === 'text_delta'`. -/
def anthropicStreamGuard (chunk : AnthropicStreamChunk) : Bool :=
  chunk.type == "content_block_delta" &&
    (match chunk.delta with
     | some d => d.type == "text_delta"
     | none => false)

/-- The sequence of partial responses `AnthropicAdapter.generateContentStream`
yields over a provider event stream: events passing the text-delta guard are
converted in order, all others are dropped. -/
def anthropicStreamOutputs (chunks : List AnthropicStreamChunk) :
    List GenerateContentResponse :=
  (chunks.filter fun c => anthropicStreamGuard c).map
    convertAnthropicStreamChunkToGemini

/-- `AnthropicAdapter.countTokens`: `Math.ceil(text.length / 3.5)`, which is
exactly `⌈2 L / 7⌉ = (2 L + 6) / 7` in integer arithmetic (the float
division is exact at every feasible string length). -/
def anthropicCountTokens (contents : ContentsInput) : Nat :=
  (2 * (extractTextFromContents contents).length + 6) / 7

/-! ## OpenAI adapter (`openai-adapter.ts`) -/

/-- An OpenAI chat content part: a text block or an image-url block. -/
inductive OpenAIContentPart where
  | textPart (text : String)
  | imageUrlPart (url : String)
deriving DecidableEq

/-- The `content` of an OpenAI chat message: a bare string or a part array. -/
inductive OpenAIMessageContent where
  | str (s : String)
  | parts (ps : List OpenAIContentPart)
deriving DecidableEq

/-- An OpenAI `ChatCompletionMessageParam`. -/
structure OpenAIMessage where
  role : String
  content : OpenAIMessageContent
deriving DecidableEq

/-- The data URL built for an `inlineData` part:
`data:<mimeType>;base64,<data>`. -/
def openaiDataUrl (mimeType data : String) : String :=
  "data:" ++ mimeType ++ ";base64," ++ data

/-- The guard `parts.length === 1 && parts[0].text` of
`convertGeminiPartsToOpenAI`, returning the single part's text when it
fires (an empty text string is falsy). -/
def openaiSingleTextPart : List GPart → Option String
  | [GPart.text s] => if s = "" then none else some s
  | _ => none

/-- The part-building loop of `convertGeminiPartsToOpenAI`: truthy text
becomes a text part, `inlineData` becomes an `image_url` part with a base64
data URL, anything else is skipped. -/
def openaiPartBlocks (parts : List GPart) : List OpenAIContentPart :=
  parts.filterMap fun p =>
    match p with
    | GPart.text s => if s = "" then none else some (OpenAIContentPart.textPart s)
    | GPart.inlineData m d => some (OpenAIContentPart.imageUrlPart (openaiDataUrl m d))

/-- The final collapse of `convertGeminiPartsToOpenAI`: a single text part
collapses to its bare text, otherwise the part array is returned. -/
def openaiBlocksResult : List OpenAIContentPart → OpenAIMessageContent
  | [OpenAIContentPart.textPart t] => OpenAIMessageContent.str t
  | ps => OpenAIMessageContent.parts ps

/-- `OpenAIAdapter.convertGeminiPartsToOpenAI`. -/
def convertGeminiPartsToOpenAI (parts : List GPart) : OpenAIMessageContent :=
  match openaiSingleTextPart parts with
  | some s => OpenAIMessageContent.str s
  | none => openaiBlocksResult (openaiPartBlocks parts)

/-- The per-part step of `OpenAIAdapter.convertGeminiPartsToText`:
`part.text ? part.text : part.inlineData ? '[Image data]' : ''`. -/
def openaiPartToText : GPart → String
  | GPart.text s => s
  | GPart.inlineData _ _ => "[Image data]"

/-- `OpenAIAdapter.convertGeminiPartsToText`. -/
def openaiConvertGeminiPartsToText (parts : List GPart) : String :=
  joinWith " " (parts.map openaiPartToText)

/-- JS truthiness of an optional `systemInstruction`: an empty string is
falsy, a Content object is truthy. -/
def jsSysInstrTruthy : Option SysInstr → Bool
  | some (SysInstr.str s) => s ≠ ""
  | some (SysInstr.content _) => true
  | none => false

/-- The system-prompt text the OpenAI and Meta adapters inline:
`typeof si === 'string' ? si : extractTextFromContents(si)`. -/
def sysInstrText : SysInstr → String
  | SysInstr.str s => s
  | SysInstr.content c => extractTextFromContents (ContentsInput.one (ContentItem.content c))

/-- The leading system message of `convertGeminiToOpenAIMessages` (present
only when `request.config?.systemInstruction` is truthy). -/
def openaiSystemMessages (request : GenerateContentParameters) : List OpenAIMessage :=
  match request.config with
  | none => []
  | some cfg =>
    if jsSysInstrTruthy cfg.systemInstruction then
      match cfg.systemInstruction with
      | some si => [⟨"system", OpenAIMessageContent.str (sysInstrText si)⟩]
      | none => []
    else []

/-- The per-element step of `OpenAIAdapter.convertGeminiToOpenAIMessages`:
a bare string becomes a user message; role `user` gets structured content,
role `model` gets flattened text; any other role produces nothing. -/
def openaiItemToMessage : ContentItem → Option OpenAIMessage
  | ContentItem.str s => some ⟨"user", OpenAIMessageContent.str s⟩
  | ContentItem.content c =>
    if c.role = "user" then
      some ⟨"user", convertGeminiPartsToOpenAI c.parts⟩
    else if c.role = "model" then
      some ⟨"assistant", OpenAIMessageContent.str (openaiConvertGeminiPartsToText c.parts)⟩
    else
      none

/-- `OpenAIAdapter.convertGeminiToOpenAIMessages`. -/
def openaiConvertGeminiToOpenAIMessages (request : GenerateContentParameters) :
    List OpenAIMessage :=
  openaiSystemMessages request ++
    (match request.contents with
     | none => []
     | some contents =>
       if jsContentsTruthy contents then
         (normalizeContents contents).filterMap openaiItemToMessage
       else [])

/-- `OpenAIAdapter.mapFinishReason`. -/
def openaiMapFinishReason (reason : Option String) : FinishReason :=
  if reason = some "stop" then FinishReason.STOP
  else if reason = some "length" then FinishReason.MAX_TOKENS
  else if reason = some "tool_calls" then FinishReason.STOP
  else if reason = some "content_filter" then FinishReason.SAFETY
  else FinishReason.OTHER

/-- OpenAI `CompletionUsage`: when the provider supplies a `usage` object at
all, all three counters are required fields of the schema. -/
structure OpenAIUsage where
  prompt_tokens : Nat
  completion_tokens : Nat
  total_tokens : Nat
deriving DecidableEq

/-- The `message` of a chat-completion choice. -/
structure OpenAIRespMessage where
  content : Option String
deriving DecidableEq

/-- A chat-completion choice. -/
structure OpenAIChoice where
  message : OpenAIRespMessage
  finish_reason : Option String
deriving DecidableEq

/-- An OpenAI `ChatCompletion` (the fields the converter reads). -/
structure OpenAIChatCompletion where
  choices : List OpenAIChoice
  usage : Option OpenAIUsage
deriving DecidableEq

/-- `OpenAIAdapter.convertOpenAIToGeminiResponse`. Reading `choices[0]` of an
empty `choices` array would crash at runtime; that failure is modelled as
`none`. -/
def openaiConvertOpenAIToGeminiResponse (response : OpenAIChatCompletion) :
    Option GenerateContentResponse :=
  match response.choices with
  | [] => none
  | choice :: _ =>
    some
      { candidates :=
          [{ content := { role := "model",
                          parts := [GPart.text (jsOrStr choice.message.content "")] },
             finishReason := some (openaiMapFinishReason choice.finish_reason),
             index := 0 }],
        usageMetadata :=
          some { promptTokenCount :=
                   (match response.usage with
                    | some u => u.prompt_tokens
                    | none => 0),
                 candidatesTokenCount :=
                   (match response.usage with
                    | some u => u.completion_tokens
                    | none => 0),
                 totalTokenCount :=
                   (match response.usage with
                    | some u => u.total_tokens
                    | none => 0) } }

/-- The `delta` of a chat-completion stream choice (`{}` with no `content`
is a real value distinct from an absent delta). -/
structure OpenAIDelta where
  content : Option String
deriving DecidableEq

/-- A chat-completion stream choice. -/
structure OpenAIStreamChoice where
  delta : Option OpenAIDelta
  finish_reason : Option String
deriving DecidableEq

/-- A chat-completion stream chunk. -/
structure OpenAIChunk where
  choices : List OpenAIStreamChoice
deriving DecidableEq

/-- `OpenAIAdapter.convertOpenAIStreamChunkToGemini`. Reading `choices[0]` of
an empty array would crash; modelled as `none`. The partial response carries
`choice.delta.content || ''` and a finish reason only when
`choice.finish_reason` is truthy. -/
def openaiConvertOpenAIStreamChunkToGemini (chunk : OpenAIChunk) :
    Option GenerateContentResponse :=
  match chunk.choices with
  | [] => none
  | choice :: _ =>
    some
      { candidates :=
          [{ content := { role := "model",
                          parts := [GPart.text
                            (match choice.delta with
                             | some d => jsOrStr d.content ""
                             | none => "")] },
             finishReason :=
               if jsStrTruthy choice.finish_reason then
                 some (openaiMapFinishReason choice.finish_reason)
               else none,
             index := 0 }],
        usageMetadata := none }

/-- The guard of the OpenAI stream loop: `chunk.choices[0]?.delta`. -/
def openaiStreamGuard (chunk : OpenAIChunk) : Bool :=
  match chunk.choices.head? with
  | some choice => choice.delta.isSome
  | none => false

/-- The sequence of partial responses `OpenAIAdapter.generateContentStream`
yields over a provider chunk stream. -/
def openaiStreamOutputs (chunks : List OpenAIChunk) :
    List GenerateContentResponse :=
  chunks.filterMap fun c =>
    if openaiStreamGuard c then openaiConvertOpenAIStreamChunkToGemini c
    else none

/-- `OpenAIAdapter.countTokens`: `Math.ceil(text.length / 4) = (L + 3) / 4`. -/
def openaiCountTokens (contents : ContentsInput) : Nat :=
  ((extractTextFromContents contents).length + 3) / 4

/-! ## Meta Llama adapter (`meta-llama-adapter.ts`)

The Meta adapter reuses the OpenAI SDK wire types; only its part-to-text
flattening (both roles are flattened), its finish-reason table (no
`tool_calls` row) and its image placeholder differ. -/

/-- The per-part step of `MetaLlamaAdapter.convertGeminiPartsToText`. -/
def metaPartToText : GPart → String
  | GPart.text s => s
  | GPart.inlineData _ _ => "[Image data not supported by this provider]"

/-- `MetaLlamaAdapter.convertGeminiPartsToText`. -/
def metaConvertGeminiPartsToText (parts : List GPart) : String :=
  joinWith " " (parts.map metaPartToText)

/-- The per-element step of `MetaLlamaAdapter.convertGeminiToOpenAIMessages`:
both `user` and `model` contents are flattened to plain text. -/
def metaItemToMessage : ContentItem → Option OpenAIMessage
  | ContentItem.str s => some ⟨"user", OpenAIMessageContent.str s⟩
  | ContentItem.content c =>
    if c.role = "user" then
      some ⟨"user", OpenAIMessageContent.str (metaConvertGeminiPartsToText c.parts)⟩
    else if c.role = "model" then
      some ⟨"assistant", OpenAIMessageContent.str (metaConvertGeminiPartsToText c.parts)⟩
    else
      none

/-- `MetaLlamaAdapter.convertGeminiToOpenAIMessages`. -/
def metaConvertGeminiToOpenAIMessages (request : GenerateContentParameters) :
    List OpenAIMessage :=
  openaiSystemMessages request ++
    (match request.contents with
     | none => []
     | some contents =>
       if jsContentsTruthy contents then
         (normalizeContents contents).filterMap metaItemToMessage
       else [])

/-- `MetaLlamaAdapter.mapFinishReason` (no `tool_calls` row). -/
def metaMapFinishReason (reason : Option String) : FinishReason :=
  if reason = some "stop" then FinishReason.STOP
  else if reason = some "length" then FinishReason.MAX_TOKENS
  else if reason = some "content_filter" then FinishReason.SAFETY
  else FinishReason.OTHER

/-- `MetaLlamaAdapter.convertOpenAIToGeminiResponse` (identical to the OpenAI
adapter's converter except for the finish-reason table). -/
def metaConvertOpenAIToGeminiResponse (response : OpenAIChatCompletion) :
    Option GenerateContentResponse :=
  match response.choices with
  | [] => none
  | choice :: _ =>
    some
      { candidates :=
          [{ content := { role := "model",
                          parts := [GPart.text (jsOrStr choice.message.content "")] },
             finishReason := some (metaMapFinishReason choice.finish_reason),
             index := 0 }],
        usageMetadata :=
          some { promptTokenCount :=
                   (match response.usage with
                    | some u => u.prompt_tokens
                    | none => 0),
                 candidatesTokenCount :=
                   (match response.usage with
                    | some u => u.completion_tokens
                    | none => 0),
                 totalTokenCount :=
                   (match response.usage with
                    | some u => u.total_tokens
                    | none => 0) } }

/-- `MetaLlamaAdapter.convertOpenAIStreamChunkToGemini`. -/
def metaConvertOpenAIStreamChunkToGemini (chunk : OpenAIChunk) :
    Option GenerateContentResponse :=
  match chunk.choices with
  | [] => none
  | choice :: _ =>
    some
      { candidates :=
          [{ content := { role := "model",
                          parts := [GPart.text
                            (match choice.delta with
                             | some d => jsOrStr d.content ""
                             | none => "")] },
             finishReason :=
               if jsStrTruthy choice.finish_reason then
                 some (metaMapFinishReason choice.finish_reason)
               else none,
             index := 0 }],
        usageMetadata := none }

/-- The sequence of partial responses
`MetaLlamaAdapter.generateContentStream` yields over a provider stream. -/
def metaStreamOutputs (chunks : List OpenAIChunk) :
    List GenerateContentResponse :=
  chunks.filterMap fun c =>
    if openaiStreamGuard c then metaConvertOpenAIStreamChunkToGemini c
    else none

/-- `MetaLlamaAdapter.countTokens`: `Math.ceil(text.length / 4)`. -/
def metaCountTokens (contents : ContentsInput) : Nat :=
  ((extractTextFromContents contents).length + 3) / 4

/-! ## Theorems -/

/-- C2 counterexample: the claim requires tool/function invocation to map to
STOP for every adapter, but the Meta Llama adapter's lookup table has no
`tool_calls` row, so the OpenAI-schema tool-invocation signal falls through
to OTHER. -/
theorem c2_counterexample_meta_tool_calls :
    metaMapFinishReason (some "tool_calls") = FinishReason.OTHER ∧
      FinishReason.OTHER ≠ FinishReason.STOP := by decide

/-- C2 (amended): each adapter maps exactly the rows of its own lookup table
as documented — Anthropic: `end_turn`/`stop_sequence`/`tool_use` to STOP and
`max_tokens` to MAX_TOKENS; OpenAI: `stop`/`tool_calls` to STOP, `length` to
MAX_TOKENS, `content_filter` to SAFETY; Meta Llama: `stop` to STOP, `length`
to MAX_TOKENS, `content_filter` to SAFETY (no tool-invocation row) — and
every provider string outside the adapter's table, as well as `null`, maps
to OTHER. -/
theorem c2_finish_reason_tables_amended :
    (anthropicMapFinishReason (some "end_turn") = FinishReason.STOP ∧
     anthropicMapFinishReason (some "stop_sequence") = FinishReason.STOP ∧
     anthropicMapFinishReason (some "tool_use") = FinishReason.STOP ∧
     anthropicMapFinishReason (some "max_tokens") = FinishReason.MAX_TOKENS ∧
     anthropicMapFinishReason none = FinishReason.OTHER ∧
     ∀ s : String, s ≠ "end_turn" → s ≠ "max_tokens" → s ≠ "stop_sequence" →
       s ≠ "tool_use" → anthropicMapFinishReason (some s) = FinishReason.OTHER) ∧
    (openaiMapFinishReason (some "stop") = FinishReason.STOP ∧
     openaiMapFinishReason (some "tool_calls") = FinishReason.STOP ∧
     openaiMapFinishReason (some "length") = FinishReason.MAX_TOKENS ∧
     openaiMapFinishReason (some "content_filter") = FinishReason.SAFETY ∧
     openaiMapFinishReason none = FinishReason.OTHER ∧
     ∀ s : String, s ≠ "stop" → s ≠ "length" → s ≠ "tool_calls" →
       s ≠ "content_filter" → openaiMapFinishReason (some s) = FinishReason.OTHER) ∧
    (metaMapFinishReason (some "stop") = FinishReason.STOP ∧
     metaMapFinishReason (some "length") = FinishReason.MAX_TOKENS ∧
     metaMapFinishReason (some "content_filter") = FinishReason.SAFETY ∧
     metaMapFinishReason none = FinishReason.OTHER ∧
     ∀ s : String, s ≠ "stop" → s ≠ "length" →
       s ≠ "content_filter" → metaMapFinishReason (some s) = FinishReason.OTHER) := by
  refine ⟨⟨by decide, by decide, by decide, by decide, by decide, ?_⟩,
          ⟨by decide, by decide, by decide, by decide, by decide, ?_⟩,
          ⟨by decide, by decide, by decide, by decide, ?_⟩⟩
  · intro s h1 h2 h3 h4
    simp [anthropicMapFinishReason, h1, h2, h3, h4]
  · intro s h1 h2 h3 h4
    simp [openaiMapFinishReason, h1, h2, h3, h4]
  · intro s h1 h2 h3
    simp [metaMapFinishReason, h1, h2, h3]

/-- C2 witness: out-of-table strings map to OTHER in all three adapters. -/
theorem c2_finish_reason_tables_witness :
    anthropicMapFinishReason (some "pause_turn") = FinishReason.OTHER ∧
    openaiMapFinishReason (some "function_call") = FinishReason.OTHER ∧
    metaMapFinishReason (some "tool_calls") = FinishReason.OTHER := by
  obtain ⟨⟨_, _, _, _, _, ha⟩, ⟨_, _, _, _, _, ho⟩, ⟨_, _, _, _, hm⟩⟩ :=
    c2_finish_reason_tables_amended
  exact ⟨ha _ (by decide) (by decide) (by decide) (by decide),
         ho _ (by decide) (by decide) (by decide) (by decide),
         hm _ (by decide) (by decide) (by decide)⟩

/-- A `Nat` rounding-up division equals the rational ceiling:
`(a + b - 1) / b = ⌈a / b⌉`. -/
theorem natCeilDiv_eq_ceil (a b : ℕ) (hb : 0 < b) :
    (((a + b - 1) / b : ℕ) : ℤ) = ⌈(a : ℚ) / (b : ℚ)⌉ := by
  have hq := Nat.div_add_mod (a + b - 1) b
  have hm : (a + b - 1) % b < b := Nat.mod_lt _ hb
  set q : ℕ := (a + b - 1) / b with hqdef
  have h1 : b * q < a + b := by omega
  have h2 : a ≤ b * q := by omega
  have hbQ : (0 : ℚ) < (b : ℚ) := by exact_mod_cast hb
  rw [eq_comm, Int.ceil_eq_iff]
  constructor
  · rw [lt_div_iff₀ hbQ]
    have h1Q : (b : ℚ) * (q : ℚ) < (a : ℚ) + (b : ℚ) := by exact_mod_cast h1
    push_cast
    linarith [h1Q]
  · rw [div_le_iff₀ hbQ]
    have h2Q : (a : ℚ) ≤ (b : ℚ) * (q : ℚ) := by exact_mod_cast h2
    push_cast
    linarith [h2Q]

/-- C5: `countTokens` never fails; on input whose extracted text is empty it
returns 0 for every adapter, and in general it returns the mathematical
ceiling of length over the adapter's characters-per-token constant: 3.5 for
the Anthropic adapter, 4 for the OpenAI and Meta Llama adapters. -/
theorem c5_count_tokens (contents : ContentsInput) :
    ((extractTextFromContents contents).length = 0 →
       anthropicCountTokens contents = 0 ∧ openaiCountTokens contents = 0 ∧
         metaCountTokens contents = 0) ∧
    (anthropicCountTokens contents : ℤ) =
      ⌈((extractTextFromContents contents).length : ℚ) / 3.5⌉ ∧
    (openaiCountTokens contents : ℤ) =
      ⌈((extractTextFromContents contents).length : ℚ) / 4⌉ ∧
    (metaCountTokens contents : ℤ) =
      ⌈((extractTextFromContents contents).length : ℚ) / 4⌉ := by
  refine ⟨?_, ?_, ?_, ?_⟩
  · intro h
    refine ⟨?_, ?_, ?_⟩ <;>
      simp [anthropicCountTokens, openaiCountTokens, metaCountTokens, h]
  · have key := natCeilDiv_eq_ceil (2 * (extractTextFromContents contents).length) 7
      (by norm_num)
    have harg : 2 * (extractTextFromContents contents).length + 7 - 1 =
        2 * (extractTextFromContents contents).length + 6 := by omega
    rw [harg] at key
    have hdiv : ((extractTextFromContents contents).length : ℚ) / 3.5 =
        ((2 * (extractTextFromContents contents).length : ℕ) : ℚ) / (7 : ℚ) := by
      push_cast
      rw [show (3.5 : ℚ) = 7 / 2 by norm_num]
      field_simp
      ring
    rw [anthropicCountTokens, hdiv]
    exact_mod_cast key
  · have key := natCeilDiv_eq_ceil ((extractTextFromContents contents).length) 4
      (by norm_num)
    have harg : (extractTextFromContents contents).length + 4 - 1 =
        (extractTextFromContents contents).length + 3 := by omega
    rw [harg] at key
    rw [openaiCountTokens]
    exact_mod_cast key
  · have key := natCeilDiv_eq_ceil ((extractTextFromContents contents).length) 4
      (by norm_num)
    have harg : (extractTextFromContents contents).length + 4 - 1 =
        (extractTextFromContents contents).length + 3 := by omega
    rw [harg] at key
    rw [metaCountTokens]
    exact_mod_cast key

/-- C5 witness: on an empty-text request all three adapters count 0 tokens. -/
theorem c5_count_tokens_witness :
    anthropicCountTokens (ContentsInput.one (ContentItem.str "")) = 0 ∧
    openaiCountTokens (ContentsInput.one (ContentItem.str "")) = 0 ∧
    metaCountTokens (ContentsInput.one (ContentItem.str "")) = 0 :=
  (c5_count_tokens (ContentsInput.one (ContentItem.str ""))).1 rfl

/-- The human-readable provider name a missing-credential error must
mention (the claim's "names the missing provider credential"). -/
def secondaryProviderName : AuthType → String
  | AuthType.USE_OPENAI => "OpenAI"
  | AuthType.USE_ANTHROPIC => "Anthropic"
  | AuthType.USE_META_LLAMA => "Meta Llama"
  | _ => ""

/-- C6: requesting a generator for a secondary-provider auth mode whose
config carries no apiKey makes `createContentGenerator` fail with an error
naming the missing provider credential; the factory is pure local
validation, so the failure involves no network activity. -/
theorem c6_missing_key_error (config : ContentGeneratorConfig) (a : AuthType)
    (hat : config.authType = some a)
    (ha : a = AuthType.USE_OPENAI ∨ a = AuthType.USE_ANTHROPIC ∨
      a = AuthType.USE_META_LLAMA)
    (hk : config.apiKey = none) :
    ∃ msg, createContentGenerator config = Except.error msg ∧
      jsIncludes msg (secondaryProviderName a) = true := by
  rcases ha with h | h | h <;> subst h
  · exact ⟨"OpenAI API key is required but not provided",
      by simp [createContentGenerator, hat, hk], by decide⟩
  · exact ⟨"Anthropic API key is required but not provided",
      by simp [createContentGenerator, hat, hk], by decide⟩
  · exact ⟨"Meta Llama API key is required but not provided",
      by simp [createContentGenerator, hat, hk], by decide⟩

/-- C6 witness: a concrete Anthropic-mode config with no apiKey. -/
theorem c6_missing_key_error_witness :
    ∃ msg,
      createContentGenerator
        ⟨"claude-3-5-sonnet-20241022", none, none, some AuthType.USE_ANTHROPIC,
         none, some Provider.anthropic⟩ = Except.error msg ∧
      jsIncludes msg (secondaryProviderName AuthType.USE_ANTHROPIC) = true :=
  c6_missing_key_error _ _ rfl (Or.inr (Or.inl rfl)) rfl

/-- C7: for every adapter's non-streaming response translation, absent
provider usage counters default to 0, and when the provider supplies no
total directly the canonical total equals prompt + candidates: the Anthropic
schema never carries a total, and the converter always sums the two
counters; in the OpenAI wire schema a usage object carries all three
counters, so a total is absent exactly when `usage` is wholly absent, in
which case all three counters default to 0 (and 0 = 0 + 0). -/
theorem c7_usage_metadata (ar : AnthropicApiMessage) (resp : OpenAIChatCompletion)
    (choice : OpenAIChoice) (rest : List OpenAIChoice)
    (hc : resp.choices = choice :: rest) (hu : resp.usage = none) :
    (convertAnthropicToGeminiResponse ar).usageMetadata =
      some ⟨ar.usage.input_tokens, ar.usage.output_tokens,
            ar.usage.input_tokens + ar.usage.output_tokens⟩ ∧
    (∃ g, openaiConvertOpenAIToGeminiResponse resp = some g ∧
       g.usageMetadata = some ⟨0, 0, 0 + 0⟩) ∧
    (∃ g, metaConvertOpenAIToGeminiResponse resp = some g ∧
       g.usageMetadata = some ⟨0, 0, 0 + 0⟩) := by
  obtain ⟨choices, usage⟩ := resp
  dsimp only at hc hu
  subst hc
  subst hu
  exact ⟨rfl, ⟨_, rfl, rfl⟩, ⟨_, rfl, rfl⟩⟩

/-- C7 witness: a concrete Anthropic message and a concrete OpenAI-schema
response with no usage object. -/
theorem c7_usage_metadata_witness :
    (convertAnthropicToGeminiResponse ⟨[⟨"text", "hi"⟩], some "end_turn", ⟨3, 4⟩⟩).usageMetadata =
      some ⟨3, 4, 3 + 4⟩ ∧
    (∃ g, openaiConvertOpenAIToGeminiResponse
        ⟨[⟨⟨some "hi"⟩, some "stop"⟩], none⟩ = some g ∧
       g.usageMetadata = some ⟨0, 0, 0 + 0⟩) ∧
    (∃ g, metaConvertOpenAIToGeminiResponse
        ⟨[⟨⟨some "hi"⟩, some "stop"⟩], none⟩ = some g ∧
       g.usageMetadata = some ⟨0, 0, 0 + 0⟩) :=
  c7_usage_metadata ⟨[⟨"text", "hi"⟩], some "end_turn", ⟨3, 4⟩⟩
    ⟨[⟨⟨some "hi"⟩, some "stop"⟩], none⟩ ⟨⟨some "hi"⟩, some "stop"⟩ [] rfl rfl

/-- The hardcoded default model `createContentGeneratorConfig` substitutes
for each secondary provider. -/
def secondaryDefaultModel : AuthType → String
  | AuthType.USE_OPENAI => "gpt-4o"
  | AuthType.USE_ANTHROPIC => "claude-3-5-sonnet-20241022"
  | AuthType.USE_META_LLAMA => "llama-3.1-70b-instruct"
  | _ => ""

/-- Whether the credential `createContentGeneratorConfig` checks for a
secondary-provider mode is present in the environment. -/
def secondaryCredentialPresent (a : AuthType) (env : Env) : Prop :=
  match a with
  | AuthType.USE_OPENAI => envOpt env.OPENAI_API_KEY ≠ none
  | AuthType.USE_ANTHROPIC => envOpt env.ANTHROPIC_API_KEY ≠ none
  | AuthType.USE_META_LLAMA =>
      envOpt env.META_API_KEY ≠ none ∨ envOpt env.LLAMA_API_KEY ≠ none
  | _ => False

/-- C3: when the requested auth mode is a secondary provider with its
credential present, the resolved model is that provider's hardcoded default
exactly when the selected model string contains the substring `gemini`, and
is left unchanged otherwise. -/
theorem c3_secondary_default_model (cfgModel proxy : Option String) (env : Env)
    (a : AuthType)
    (ha : a = AuthType.USE_OPENAI ∨ a = AuthType.USE_ANTHROPIC ∨
      a = AuthType.USE_META_LLAMA)
    (hcred : secondaryCredentialPresent a env) :
    (createContentGeneratorConfig cfgModel proxy (some a) env).model =
      (if jsIncludes (jsOrStr cfgModel DEFAULT_GEMINI_MODEL) "gemini"
       then secondaryDefaultModel a
       else jsOrStr cfgModel DEFAULT_GEMINI_MODEL) := by
  rcases ha with h | h | h <;> subst h <;>
    simp only [secondaryCredentialPresent] at hcred
  · simp [createContentGeneratorConfig, secondaryDefaultModel, hcred]
  · simp [createContentGeneratorConfig, secondaryDefaultModel, hcred]
  · rcases hM : envOpt env.META_API_KEY with _ | k
    · rcases hcred with hcred | hcred
      · exact absurd hM hcred
      · simp [createContentGeneratorConfig, secondaryDefaultModel, hM, hcred]
    · simp [createContentGeneratorConfig, secondaryDefaultModel, hM]

/-- C3 witness: with only an OpenAI key set and a gemini-family model
selected, the resolved model is the OpenAI default; with a non-gemini model
selected, it is unchanged. -/
theorem c3_secondary_default_model_witness :
    (createContentGeneratorConfig (some "gemini-2.5-pro") none
      (some AuthType.USE_OPENAI)
      ⟨none, none, some "sk-test", none, none, none, none, none⟩).model = "gpt-4o" ∧
    (createContentGeneratorConfig (some "o3-mini") none
      (some AuthType.USE_OPENAI)
      ⟨none, none, some "sk-test", none, none, none, none, none⟩).model = "o3-mini" := by
  have h1 := c3_secondary_default_model (some "gemini-2.5-pro") none
    ⟨none, none, some "sk-test", none, none, none, none, none⟩ AuthType.USE_OPENAI
    (Or.inl rfl) (by simp [secondaryCredentialPresent, envOpt])
  have h2 := c3_secondary_default_model (some "o3-mini") none
    ⟨none, none, some "sk-test", none, none, none, none, none⟩ AuthType.USE_OPENAI
    (Or.inl rfl) (by simp [secondaryCredentialPresent, envOpt])
  rw [h1, h2]
  constructor <;> decide

/-- The environment variables belonging to the provider implied by an auth
mode: two environment snapshots that agree on them (and may differ
arbitrarily everywhere else) are indistinguishable to config resolution. -/
def relevantEnvAgrees (authType : Option AuthType) (e1 e2 : Env) : Prop :=
  match authType with
  | some AuthType.USE_OPENAI => e1.OPENAI_API_KEY = e2.OPENAI_API_KEY
  | some AuthType.USE_ANTHROPIC => e1.ANTHROPIC_API_KEY = e2.ANTHROPIC_API_KEY
  | some AuthType.USE_META_LLAMA =>
      e1.META_API_KEY = e2.META_API_KEY ∧ e1.LLAMA_API_KEY = e2.LLAMA_API_KEY
  | some _ =>
      e1.GEMINI_API_KEY = e2.GEMINI_API_KEY ∧
      e1.GOOGLE_API_KEY = e2.GOOGLE_API_KEY ∧
      e1.GOOGLE_CLOUD_PROJECT = e2.GOOGLE_CLOUD_PROJECT ∧
      e1.GOOGLE_CLOUD_LOCATION = e2.GOOGLE_CLOUD_LOCATION
  | none => True

/-- C9: config resolution is noninterfering with respect to unrelated
credentials — for every requested auth mode, environments that agree on the
implied provider's credential variables (and the same model and proxy)
resolve to identical configs, however the other providers' variables
differ. -/
theorem c9_credential_noninterference (cfgModel proxy : Option String)
    (authType : Option AuthType) (e1 e2 : Env)
    (h : relevantEnvAgrees authType e1 e2) :
    createContentGeneratorConfig cfgModel proxy authType e1 =
      createContentGeneratorConfig cfgModel proxy authType e2 := by
  cases authType with
  | none => simp [createContentGeneratorConfig]
  | some a =>
    cases a <;> simp only [relevantEnvAgrees] at h
    · simp [createContentGeneratorConfig]
    · obtain ⟨h1, h2, h3, h4⟩ := h
      simp [createContentGeneratorConfig, h1, h2, h3, h4]
    · obtain ⟨h1, h2, h3, h4⟩ := h
      simp [createContentGeneratorConfig, h1, h2, h3, h4]
    · simp [createContentGeneratorConfig]
    · simp [createContentGeneratorConfig, h]
    · simp [createContentGeneratorConfig, h]
    · obtain ⟨h1, h2⟩ := h
      simp [createContentGeneratorConfig, h1, h2]

/-- C9 witness: two environments that agree only on the OpenAI key (the
Anthropic and Gemini keys differ) resolve identically in OpenAI mode. -/
theorem c9_credential_noninterference_witness :
    createContentGeneratorConfig (some "gemini-2.5-pro") none
      (some AuthType.USE_OPENAI)
      ⟨some "g1", none, some "sk-test", some "a1", none, none, none, none⟩ =
    createContentGeneratorConfig (some "gemini-2.5-pro") none
      (some AuthType.USE_OPENAI)
      ⟨none, some "g2", some "sk-test", none, some "m2", none, none, none⟩ :=
  c9_credential_noninterference (some "gemini-2.5-pro") none
    (some AuthType.USE_OPENAI) _ _ rfl

/-- C10: a Content whose role is neither `user` nor `model` is silently
omitted from every adapter's outgoing message list — the surrounding
Contents translate exactly as if it were absent. -/
theorem c10_unknown_role_omitted (l1 l2 : List ContentItem) (c : Content)
    (h1 : c.role ≠ "user") (h2 : c.role ≠ "model")
    (model : Option String) (cfg : Option GenerateContentConfig) :
    convertGeminiToAnthropicMessages
        ⟨model, some (ContentsInput.many (l1 ++ ContentItem.content c :: l2)), cfg⟩ =
      convertGeminiToAnthropicMessages
        ⟨model, some (ContentsInput.many (l1 ++ l2)), cfg⟩ ∧
    openaiConvertGeminiToOpenAIMessages
        ⟨model, some (ContentsInput.many (l1 ++ ContentItem.content c :: l2)), cfg⟩ =
      openaiConvertGeminiToOpenAIMessages
        ⟨model, some (ContentsInput.many (l1 ++ l2)), cfg⟩ ∧
    metaConvertGeminiToOpenAIMessages
        ⟨model, some (ContentsInput.many (l1 ++ ContentItem.content c :: l2)), cfg⟩ =
      metaConvertGeminiToOpenAIMessages
        ⟨model, some (ContentsInput.many (l1 ++ l2)), cfg⟩ := by
  have ha : anthropicItemToMessage (ContentItem.content c) = none := by
    simp [anthropicItemToMessage, h1, h2]
  have ho : openaiItemToMessage (ContentItem.content c) = none := by
    simp [openaiItemToMessage, h1, h2]
  have hm : metaItemToMessage (ContentItem.content c) = none := by
    simp [metaItemToMessage, h1, h2]
  refine ⟨?_, ?_, ?_⟩ <;>
    simp [convertGeminiToAnthropicMessages, openaiConvertGeminiToOpenAIMessages,
      metaConvertGeminiToOpenAIMessages, openaiSystemMessages, jsContentsTruthy,
      normalizeContents, List.filterMap_append, List.filterMap_cons, ha, ho, hm]

/-- C10 witness: a `system`-role Content between two user Contents is
dropped from all three adapters' message lists. -/
theorem c10_unknown_role_omitted_witness :
    convertGeminiToAnthropicMessages
        ⟨none, some (ContentsInput.many
          [ContentItem.content ⟨"user", [GPart.text "a"]⟩,
           ContentItem.content ⟨"system", [GPart.text "x"]⟩,
           ContentItem.content ⟨"user", [GPart.text "b"]⟩]), none⟩ =
      convertGeminiToAnthropicMessages
        ⟨none, some (ContentsInput.many
          [ContentItem.content ⟨"user", [GPart.text "a"]⟩,
           ContentItem.content ⟨"user", [GPart.text "b"]⟩]), none⟩ := by
  have h := c10_unknown_role_omitted
    [ContentItem.content ⟨"user", [GPart.text "a"]⟩]
    [ContentItem.content ⟨"user", [GPart.text "b"]⟩]
    ⟨"system", [GPart.text "x"]⟩ (by decide) (by decide) none none
  exact h.1

/-- C4 counterexample: a single text Part whose text is the empty string is
falsy in JS, so the Anthropic adapter does not collapse it to a bare string
— it produces an (empty) content-block array instead. -/
theorem c4_counterexample_empty_text_part :
    convertGeminiToAnthropicMessages
        ⟨none, some (ContentsInput.many
          [ContentItem.content ⟨"user", [GPart.text ""]⟩]), none⟩ =
      [⟨"user", AnthropicMessageContent.blocks []⟩] ∧
    AnthropicMessageContent.blocks [] ≠ AnthropicMessageContent.str "" := by
  decide

/-- C4 (amended): for every adapter and every request whose Contents are a
single Content (role `user` or `model`) holding exactly one text Part with
non-empty text, the translated provider message content is that text as a
bare string, not wrapped in an array. -/
theorem c4_single_text_part_amended (s role : String) (hs : s ≠ "")
    (hrole : role = "user" ∨ role = "model") :
    convertGeminiToAnthropicMessages
        ⟨none, some (ContentsInput.many
          [ContentItem.content ⟨role, [GPart.text s]⟩]), none⟩ =
      [⟨if role = "user" then "user" else "assistant",
        AnthropicMessageContent.str s⟩] ∧
    openaiConvertGeminiToOpenAIMessages
        ⟨none, some (ContentsInput.many
          [ContentItem.content ⟨role, [GPart.text s]⟩]), none⟩ =
      [⟨if role = "user" then "user" else "assistant",
        OpenAIMessageContent.str s⟩] ∧
    metaConvertGeminiToOpenAIMessages
        ⟨none, some (ContentsInput.many
          [ContentItem.content ⟨role, [GPart.text s]⟩]), none⟩ =
      [⟨if role = "user" then "user" else "assistant",
        OpenAIMessageContent.str s⟩] := by
  rcases hrole with h | h <;> subst h <;> refine ⟨?_, ?_, ?_⟩ <;>
    simp [convertGeminiToAnthropicMessages, openaiConvertGeminiToOpenAIMessages,
      metaConvertGeminiToOpenAIMessages, jsContentsTruthy, normalizeContents,
      anthropicItemToMessage, openaiItemToMessage, metaItemToMessage,
      openaiSystemMessages, jsSysInstrTruthy,
      convertGeminiPartsToAnthropic, anthropicSingleTextPart,
      convertGeminiPartsToOpenAI, openaiSingleTextPart,
      openaiConvertGeminiPartsToText, metaConvertGeminiPartsToText,
      openaiPartToText, metaPartToText, joinWith, hs]

/-- C4 witness: a one-user-Content one-text-Part request collapses to a bare
string for the Anthropic adapter. -/
theorem c4_single_text_part_witness :
    convertGeminiToAnthropicMessages
        ⟨none, some (ContentsInput.many
          [ContentItem.content ⟨"user", [GPart.text "hi"]⟩]), none⟩ =
      [⟨"user", AnthropicMessageContent.str "hi"⟩] := by
  have h := (c4_single_text_part_amended "hi" "user" (by decide) (Or.inl rfl)).1
  simpa using h

/-- If the Anthropic single-text-part guard fires, the part list really was
a single non-empty text part. -/
theorem anthropicSingleTextPart_eq_some {parts : List GPart} {s : String}
    (h : anthropicSingleTextPart parts = some s) : parts = [GPart.text s] := by
  cases parts with
  | nil => simp [anthropicSingleTextPart] at h
  | cons p rest =>
    cases rest with
    | cons q r2 => simp [anthropicSingleTextPart] at h
    | nil =>
      cases p with
      | inlineData m d => simp [anthropicSingleTextPart] at h
      | text t =>
        by_cases ht : t = ""
        · simp [anthropicSingleTextPart, ht] at h
        · simp [anthropicSingleTextPart, ht] at h
          subst h
          rfl

/-- If the OpenAI single-text-part guard fires, the part list really was a
single non-empty text part. -/
theorem openaiSingleTextPart_eq_some {parts : List GPart} {s : String}
    (h : openaiSingleTextPart parts = some s) : parts = [GPart.text s] := by
  cases parts with
  | nil => simp [openaiSingleTextPart] at h
  | cons p rest =>
    cases rest with
    | cons q r2 => simp [openaiSingleTextPart] at h
    | nil =>
      cases p with
      | inlineData m d => simp [openaiSingleTextPart] at h
      | text t =>
        by_cases ht : t = ""
        · simp [openaiSingleTextPart, ht] at h
        · simp [openaiSingleTextPart, ht] at h
          subst h
          rfl

/-- Whether an Anthropic message content carries the given text, either as
its bare string or as one of its text blocks. -/
def anthContentHasText (c : AnthropicMessageContent) (s : String) : Prop :=
  match c with
  | AnthropicMessageContent.str t => t = s
  | AnthropicMessageContent.blocks bs => (⟨"text", s⟩ : AnthropicContentBlock) ∈ bs

/-- C8: an `inlineData` Part is never silently dropped and never fails the
request: the Anthropic adapter's translated content carries its literal
placeholder text block; the OpenAI adapter's user-message content is a part
array containing the native `image_url` block for it; the OpenAI adapter's
assistant-path flattening and the Meta adapter's flattening each contribute
a literal placeholder segment for it. -/
theorem c8_inline_data_never_dropped (parts : List GPart) (m d : String)
    (h : GPart.inlineData m d ∈ parts) :
    anthContentHasText (convertGeminiPartsToAnthropic parts)
      anthropicImagePlaceholder ∧
    (∃ bs, convertGeminiPartsToOpenAI parts = OpenAIMessageContent.parts bs ∧
       OpenAIContentPart.imageUrlPart (openaiDataUrl m d) ∈ bs) ∧
    "[Image data]" ∈ parts.map openaiPartToText ∧
    "[Image data not supported by this provider]" ∈ parts.map metaPartToText := by
  refine ⟨?_, ?_, ?_, ?_⟩
  · have hpb : (⟨"text", anthropicImagePlaceholder⟩ : AnthropicContentBlock) ∈
        anthropicPartBlocks parts :=
      List.mem_filterMap.mpr ⟨_, h, rfl⟩
    cases hsp : anthropicSingleTextPart parts with
    | some s =>
      rw [anthropicSingleTextPart_eq_some hsp] at h
      simp at h
    | none =>
      rw [convertGeminiPartsToAnthropic, hsp]
      cases hbs : anthropicPartBlocks parts with
      | nil => rw [hbs] at hpb; simp at hpb
      | cons b rest =>
        rw [hbs] at hpb
        cases rest with
        | nil =>
          have hb : b = ⟨"text", anthropicImagePlaceholder⟩ := by
            have := hpb
            simp at this
            exact this.symm
          subst hb
          simp [anthropicBlocksResult, anthContentHasText]
        | cons b2 rest2 =>
          simp [anthropicBlocksResult, anthContentHasText, hpb]
  · have hpb : OpenAIContentPart.imageUrlPart (openaiDataUrl m d) ∈
        openaiPartBlocks parts :=
      List.mem_filterMap.mpr ⟨_, h, rfl⟩
    cases hsp : openaiSingleTextPart parts with
    | some s =>
      rw [openaiSingleTextPart_eq_some hsp] at h
      simp at h
    | none =>
      rw [convertGeminiPartsToOpenAI, hsp]
      cases hbs : openaiPartBlocks parts with
      | nil => rw [hbs] at hpb; simp at hpb
      | cons b rest =>
        rw [hbs] at hpb
        cases rest with
        | nil =>
          cases b with
          | textPart t => simp at hpb
          | imageUrlPart u => exact ⟨_, rfl, hpb⟩
        | cons b2 rest2 =>
          cases b with
          | textPart t => exact ⟨_, rfl, hpb⟩
          | imageUrlPart u => exact ⟨_, rfl, hpb⟩
  · exact List.mem_map.mpr ⟨_, h, rfl⟩
  · exact List.mem_map.mpr ⟨_, h, rfl⟩

/-- C8 witness: a user Content with one text and one image part. -/
theorem c8_inline_data_never_dropped_witness :
    anthContentHasText
      (convertGeminiPartsToAnthropic
        [GPart.text "look", GPart.inlineData "image/png" "QUJD"])
      anthropicImagePlaceholder ∧
    (∃ bs, convertGeminiPartsToOpenAI
        [GPart.text "look", GPart.inlineData "image/png" "QUJD"] =
          OpenAIMessageContent.parts bs ∧
       OpenAIContentPart.imageUrlPart (openaiDataUrl "image/png" "QUJD") ∈ bs) ∧
    "[Image data]" ∈
      [GPart.text "look", GPart.inlineData "image/png" "QUJD"].map openaiPartToText ∧
    "[Image data not supported by this provider]" ∈
      [GPart.text "look", GPart.inlineData "image/png" "QUJD"].map metaPartToText :=
  c8_inline_data_never_dropped
    [GPart.text "look", GPart.inlineData "image/png" "QUJD"] "image/png" "QUJD"
    (by simp)

/-- `jsOrStr (some s) "" = s` (the default is itself empty). -/
theorem jsOrStr_some_empty_default (s : String) : jsOrStr (some s) "" = s := by
  by_cases h : s = "" <;> simp [jsOrStr, h]

/-- An Anthropic `content_block_delta`/`text_delta` stream event carrying
the text `t`. -/
def anthropicTextDeltaChunk (t : String) : AnthropicStreamChunk :=
  ⟨"content_block_delta", some ⟨"text_delta", some t⟩⟩

/-- A synthetic OpenAI-schema provider stream of incremental text-delta
events: every event carries one delta from `ds`, and the terminal event
additionally carries the provider finish-reason string `r`. -/
def openAISyntheticStream (ds : List String) (r : String) : List OpenAIChunk :=
  match ds with
  | [] => []
  | [d] => [⟨[⟨some ⟨some d⟩, some r⟩]⟩]
  | d :: rest => ⟨[⟨some ⟨some d⟩, none⟩]⟩ :: openAISyntheticStream rest r

/-- The text delta carried by a canonical partial response (defined exactly
when the response has a single candidate with a single text part). -/
def streamText (resp : GenerateContentResponse) : Option String :=
  match resp.candidates with
  | [c] =>
    match c.content.parts with
    | [GPart.text t] => some t
    | _ => none
  | _ => none

/-- The finish reason carried by a canonical partial response with a single
candidate. -/
def streamFinish (resp : GenerateContentResponse) : Option FinishReason :=
  match resp.candidates with
  | [c] => c.finishReason
  | _ => none


/-- Unfolding one synthetic text-delta chunk through the OpenAI stream
pipeline. -/
theorem openaiStreamOutputs_cons_delta (d : String) (fr : Option String)
    (cs : List OpenAIChunk) :
    openaiStreamOutputs (⟨[⟨some ⟨some d⟩, fr⟩]⟩ :: cs) =
      ⟨[⟨⟨"model", [GPart.text d]⟩,
         if jsStrTruthy fr then some (openaiMapFinishReason fr) else none, 0⟩],
        none⟩ :: openaiStreamOutputs cs := by
  simp [openaiStreamOutputs, List.filterMap_cons, openaiStreamGuard,
    openaiConvertOpenAIStreamChunkToGemini, jsStrTruthy, jsOrStr_some_empty_default]

/-- Unfolding one synthetic text-delta chunk through the Meta Llama stream
pipeline. -/
theorem metaStreamOutputs_cons_delta (d : String) (fr : Option String)
    (cs : List OpenAIChunk) :
    metaStreamOutputs (⟨[⟨some ⟨some d⟩, fr⟩]⟩ :: cs) =
      ⟨[⟨⟨"model", [GPart.text d]⟩,
         if jsStrTruthy fr then some (metaMapFinishReason fr) else none, 0⟩],
        none⟩ :: metaStreamOutputs cs := by
  simp [metaStreamOutputs, List.filterMap_cons, openaiStreamGuard,
    metaConvertOpenAIStreamChunkToGemini, jsStrTruthy, jsOrStr_some_empty_default]

/-- Unfolding one text-delta event through the Anthropic stream pipeline. -/
theorem anthropicStreamOutputs_cons_delta (t : String)
    (cs : List AnthropicStreamChunk) :
    anthropicStreamOutputs (anthropicTextDeltaChunk t :: cs) =
      ⟨[⟨⟨"model", [GPart.text t]⟩, none, 0⟩], none⟩ ::
        anthropicStreamOutputs cs := by
  simp [anthropicStreamOutputs, List.filter_cons, anthropicStreamGuard,
    anthropicTextDeltaChunk, convertAnthropicStreamChunkToGemini,
    jsOrStr_some_empty_default]

/-- The OpenAI adapter on a synthetic text-delta stream: one partial per
event, in order, each carrying only its event's delta; only the terminal
partial carries a finish reason, namely the mapped one. -/
theorem openai_synthetic_stream_outputs (ds : List String) (r : String)
    (hds : ds ≠ []) (hr : r ≠ "") :
    (openaiStreamOutputs (openAISyntheticStream ds r)).map streamText =
      ds.map some ∧
    (openaiStreamOutputs (openAISyntheticStream ds r)).map streamFinish =
      List.replicate (ds.length - 1) none ++
        [some (openaiMapFinishReason (some r))] := by
  induction ds with
  | nil => exact absurd rfl hds
  | cons d rest ih =>
    cases rest with
    | nil =>
      rw [show openAISyntheticStream [d] r = [⟨[⟨some ⟨some d⟩, some r⟩]⟩] from rfl,
        show ([⟨[⟨some ⟨some d⟩, some r⟩]⟩] : List OpenAIChunk) =
          ⟨[⟨some ⟨some d⟩, some r⟩]⟩ :: [] from rfl,
        openaiStreamOutputs_cons_delta]
      constructor <;>
        simp [openaiStreamOutputs, streamText, streamFinish, jsStrTruthy, hr]
    | cons d2 rest2 =>
      have ih2 := ih (by simp)
      rw [show openAISyntheticStream (d :: d2 :: rest2) r =
            ⟨[⟨some ⟨some d⟩, none⟩]⟩ :: openAISyntheticStream (d2 :: rest2) r
          from rfl,
        openaiStreamOutputs_cons_delta]
      constructor
      · rw [List.map_cons, ih2.1]
        simp [streamText]
      · rw [List.map_cons, ih2.2]
        simp [streamFinish, jsStrTruthy, List.replicate_succ]

/-- The Meta Llama adapter on a synthetic text-delta stream (same pipeline
shape as the OpenAI adapter, with its own finish-reason table). -/
theorem meta_synthetic_stream_outputs (ds : List String) (r : String)
    (hds : ds ≠ []) (hr : r ≠ "") :
    (metaStreamOutputs (openAISyntheticStream ds r)).map streamText =
      ds.map some ∧
    (metaStreamOutputs (openAISyntheticStream ds r)).map streamFinish =
      List.replicate (ds.length - 1) none ++
        [some (metaMapFinishReason (some r))] := by
  induction ds with
  | nil => exact absurd rfl hds
  | cons d rest ih =>
    cases rest with
    | nil =>
      rw [show openAISyntheticStream [d] r = [⟨[⟨some ⟨some d⟩, some r⟩]⟩] from rfl,
        show ([⟨[⟨some ⟨some d⟩, some r⟩]⟩] : List OpenAIChunk) =
          ⟨[⟨some ⟨some d⟩, some r⟩]⟩ :: [] from rfl,
        metaStreamOutputs_cons_delta]
      constructor <;>
        simp [metaStreamOutputs, streamText, streamFinish, jsStrTruthy, hr]
    | cons d2 rest2 =>
      have ih2 := ih (by simp)
      rw [show openAISyntheticStream (d :: d2 :: rest2) r =
            ⟨[⟨some ⟨some d⟩, none⟩]⟩ :: openAISyntheticStream (d2 :: rest2) r
          from rfl,
        metaStreamOutputs_cons_delta]
      constructor
      · rw [List.map_cons, ih2.1]
        simp [streamText]
      · rw [List.map_cons, ih2.2]
        simp [streamFinish, jsStrTruthy, List.replicate_succ]

/-- The Anthropic adapter on a synthetic text-delta stream: one partial per
event, in order, each carrying only its delta — and no partial, terminal
included, ever carries a finish reason. -/
theorem anthropic_synthetic_stream_outputs (ts : List String) :
    (anthropicStreamOutputs (ts.map anthropicTextDeltaChunk)).map streamText =
      ts.map some ∧
    (anthropicStreamOutputs (ts.map anthropicTextDeltaChunk)).map streamFinish =
      List.replicate ts.length none := by
  induction ts with
  | nil => constructor <;> simp [anthropicStreamOutputs]
  | cons t rest ih =>
    rw [List.map_cons, anthropicStreamOutputs_cons_delta]
    constructor
    · rw [List.map_cons, ih.1]
      simp [streamText]
    · rw [List.map_cons, ih.2]
      simp [streamFinish, List.replicate_succ]

/-- A realistic Anthropic provider stream: a `message_start` event, two
incremental text deltas, and a terminal `message_delta` event (the event
that carries the provider's `stop_reason`). -/
def demoAnthropicStream : List AnthropicStreamChunk :=
  [⟨"message_start", none⟩,
   anthropicTextDeltaChunk "Hel",
   anthropicTextDeltaChunk "lo",
   ⟨"message_delta", none⟩]

/-- C1 counterexample: on a concrete Anthropic stream of two text deltas,
the adapter yields two partial responses in order but the terminal one
carries no finishReason at all, whereas the claim requires it to carry the
mapped finish reason (`convertAnthropicStreamChunkToGemini` never sets
one). -/
theorem c1_counterexample_anthropic_stream_no_finish :
    (anthropicStreamOutputs demoAnthropicStream).map streamText =
      [some "Hel", some "lo"] ∧
    (anthropicStreamOutputs demoAnthropicStream).map streamFinish =
      [none, none] := by decide

/-- C1 (amended): for the OpenAI and Meta Llama adapters the claim holds as
stated — a synthetic provider stream of N incremental text-delta events
whose terminal event carries the provider finish-reason string yields
exactly N canonical partials in the provider's order, each carrying only
that event's delta, with the mapped finish reason on the terminal partial
and on no earlier one; the Anthropic adapter likewise yields exactly N
partials in order carrying only the deltas, but attaches no finishReason to
any partial, the terminal one included. -/
theorem c1_streaming_amended (ds ts : List String) (r : String)
    (hds : ds ≠ []) (hr : r ≠ "") :
    ((openaiStreamOutputs (openAISyntheticStream ds r)).map streamText =
        ds.map some ∧
     (openaiStreamOutputs (openAISyntheticStream ds r)).map streamFinish =
        List.replicate (ds.length - 1) none ++
          [some (openaiMapFinishReason (some r))]) ∧
    ((metaStreamOutputs (openAISyntheticStream ds r)).map streamText =
        ds.map some ∧
     (metaStreamOutputs (openAISyntheticStream ds r)).map streamFinish =
        List.replicate (ds.length - 1) none ++
          [some (metaMapFinishReason (some r))]) ∧
    ((anthropicStreamOutputs (ts.map anthropicTextDeltaChunk)).map streamText =
        ts.map some ∧
     (anthropicStreamOutputs (ts.map anthropicTextDeltaChunk)).map streamFinish =
        List.replicate ts.length none) :=
  ⟨openai_synthetic_stream_outputs ds r hds hr,
   meta_synthetic_stream_outputs ds r hds hr,
   anthropic_synthetic_stream_outputs ts⟩

/-- C1 witness: a two-delta OpenAI-schema stream ending in `stop` and a
one-delta Anthropic stream, evaluated concretely. -/
theorem c1_streaming_amended_witness :
    (openaiStreamOutputs (openAISyntheticStream ["Hel", "lo"] "stop")).map
        streamFinish = [none, some FinishReason.STOP] ∧
    (metaStreamOutputs (openAISyntheticStream ["Hel", "lo"] "stop")).map
        streamFinish = [none, some FinishReason.STOP] ∧
    (anthropicStreamOutputs (["Hi"].map anthropicTextDeltaChunk)).map
        streamFinish = [none] := by
  have h := c1_streaming_amended ["Hel", "lo"] ["Hi"] "stop" (by decide) (by decide)
  refine ⟨?_, ?_, ?_⟩
  · rw [h.1.2]; decide
  · rw [h.2.1.2]; decide
  · rw [h.2.2.2]; decide
